import Mathlib

/-!
Shallow embedding of `src/gl3.c` from the simple2d repository (OpenGL 3.3
rendering path).  C floats (`GLfloat`) are modelled as exact rationals,
machine ints (`int`, `GLint`) as `Int`, unsigned handles (`GLuint`) as `Nat`.
The OpenGL driver is modelled by an environment record `GLEnv` supplying the
results of driver queries (created program handles, link statuses, shader
loader results, attribute and uniform locations), and every GL call the code
issues is recorded in an explicit trace of `GLCmd` values.  Module-level
mutable state (the two static program handles and the shared orthographic
matrix `S2D_GL_orthoMatrix`) is threaded explicitly through a `GL3State`.
-/

namespace GL3

/-- C `GLfloat`, modelled as an exact rational. -/
abbrev GLfloat := ℚ

/-- C `GLuint`, modelled as a natural number. -/
abbrev GLuint := ℕ

/-- OpenGL boolean false, `GL_FALSE` (value 0, returned as C `int`). -/
def GL_FALSE : Int := 0

/-- OpenGL boolean true, `GL_TRUE` (value 1, returned as C `int`). -/
def GL_TRUE : Int := 1

def GL_BLEND : ℕ := 0x0BE2
def GL_SRC_ALPHA : ℕ := 0x0302
def GL_ONE_MINUS_SRC_ALPHA : ℕ := 0x0303
def GL_VERTEX_SHADER : ℕ := 0x8B31
def GL_FRAGMENT_SHADER : ℕ := 0x8B30
def GL_ARRAY_BUFFER : ℕ := 0x8892
def GL_ELEMENT_ARRAY_BUFFER : ℕ := 0x8893
def GL_STATIC_DRAW : ℕ := 0x88E4
def GL_TRIANGLES : ℕ := 0x0004
def GL_UNSIGNED_INT : ℕ := 0x1405
def GL_TEXTURE_2D : ℕ := 0x0DE1

/-- Log severities of the external `S2D_Log` facility (from `simple2d.h`,
which is not part of this module; only `S2D_ERROR` is used here). -/
inductive S2DLogLevel where
  | S2D_INFO
  | S2D_WARN
  | S2D_ERROR
deriving DecidableEq, Repr

/-- The three GLSL source strings hardcoded in `gl3_init`, named abstractly
(their text plays no role in any claim). -/
inductive ShaderSrc where
  | vertexSource
  | fragmentSource
  | texFragmentSource
deriving DecidableEq, Repr

/-- One OpenGL (or logging) call issued by the module, as recorded in a
trace.  Constructors mirror the C calls one-for-one. -/
inductive GLCmd where
  | glViewport (x y w h : Int)
  | glUseProgram (program : GLuint)
  | glUniformMatrix4fv (location : GLuint) (count : ℕ) (transpose : Bool)
      (value : List GLfloat)
  | glEnable (cap : ℕ)
  | glBlendFunc (sfactor dfactor : ℕ)
  | glGenVertexArrays (n : ℕ) (array : GLuint)
  | glBindVertexArray (array : GLuint)
  | glGenBuffers (n : ℕ) (buffer : GLuint)
  | glBindBuffer (target : ℕ) (buffer : GLuint)
  | glAttachShader (program shader : GLuint)
  | glBindFragDataLocation (program : GLuint) (colorNumber : ℕ) (nm : String)
  | glLinkProgram (program : GLuint)
  | glVertexAttribPointer (index : Int) (size : ℕ) (type : ℕ)
      (normalized : Bool) (stride : ℕ) (offset : ℕ)
  | glEnableVertexAttribArray (index : Int)
  | glDeleteShader (shader : GLuint)
  | glBindTexture (target : ℕ) (texture : GLuint)
  | glBufferDataArray (target : ℕ) (data : List GLfloat) (usage : ℕ)
  | glBufferDataElements (target : ℕ) (data : List GLuint) (usage : ℕ)
  | glDrawArrays (mode : ℕ) (first count : ℕ)
  | glDrawElements (mode : ℕ) (count : ℕ) (type : ℕ) (offset : ℕ)
  | s2dLog (msg : String) (level : S2DLogLevel)
  | s2dGlPrintError (msg : String)
deriving DecidableEq, Repr

/-- Driver-side nondeterminism: results of the GL queries and of the external
shader loader, fixed per run.  `createProgram k` is the handle returned by the
(k+1)-th `glCreateProgram` call; `linkStatus p` is the `GL_LINK_STATUS` value
`glGetProgramiv` reports for program `p` (0 = not linked). -/
structure GLEnv where
  createProgram : ℕ → GLuint
  linkStatus : GLuint → Int
  loadShader : ℕ → ShaderSrc → String → GLuint
  getUniformLocation : GLuint → String → GLuint
  getAttribLocation : GLuint → String → Int
  vao : GLuint
  vbo : GLuint
  ebo : GLuint

/-- Module state: the two `static GLuint` program handles of `gl3.c`, the
shared global 16-float orthographic matrix `S2D_GL_orthoMatrix` (defined
outside this module, mutated here), and the context's current program
(the target of the last `glUseProgram`). -/
structure GL3State where
  shaderProgram : GLuint
  texShaderProgram : GLuint
  orthoMatrix : List GLfloat
  currentProgram : GLuint
deriving DecidableEq, Repr

/-- The C file-scope array `static GLuint elements[]` holding the fixed quad indices 0, 1, 2, 2, 3, 0. -/
def elements : List GLuint := [0, 1, 2, 2, 3, 0]

/-- Function `gl3_check_linked`: queries `GL_LINK_STATUS`; if not linked, logs an
error via `S2D_Log` and returns `GL_FALSE`, else returns `GL_TRUE`.
Returns the C result together with the trace of calls it issued. -/
def gl3_check_linked (env : GLEnv) (program : GLuint) : Int × List GLCmd :=
  let linked := env.linkStatus program
  if linked = 0 then
    (GL_FALSE, [GLCmd.s2dLog "GL3 shader was not linked" S2DLogLevel.S2D_ERROR])
  else
    (GL_TRUE, [])

/-- Function `gl3_set_view`: sets the GL viewport, overwrites entries 0 and 5 of
`S2D_GL_orthoMatrix` with `2/viewportWidth` and `-2/viewportHeight`, then
uploads the full matrix to the `u_mvpMatrix` uniform of the flat program and
of the textured program (switching the active program to each in turn). -/
def gl3_set_view (env : GLEnv) (s : GL3State)
    (window_width window_height s2d_viewport_width s2d_viewport_height : Int) :
    GL3State × List GLCmd :=
  let m0 := s.orthoMatrix.set 0 (2 / (s2d_viewport_width : ℚ))
  let m := m0.set 5 (-2 / (s2d_viewport_height : ℚ))
  let mMvpLocation := env.getUniformLocation s.shaderProgram "u_mvpMatrix"
  let texmMvpLocation := env.getUniformLocation s.texShaderProgram "u_mvpMatrix"
  ({ s with orthoMatrix := m, currentProgram := s.texShaderProgram },
   [GLCmd.glViewport 0 0 window_width window_height,
    GLCmd.glUseProgram s.shaderProgram,
    GLCmd.glUniformMatrix4fv mMvpLocation 1 false m,
    GLCmd.glUseProgram s.texShaderProgram,
    GLCmd.glUniformMatrix4fv texmMvpLocation 1 false m])

/-- The fixed prefix of `gl3_init`'s trace: enable blending, create and bind
the vertex array object, the vertex buffer and the element buffer. -/
def gl3_init_setup (env : GLEnv) : List GLCmd :=
  [GLCmd.glEnable GL_BLEND,
   GLCmd.glBlendFunc GL_SRC_ALPHA GL_ONE_MINUS_SRC_ALPHA,
   GLCmd.glGenVertexArrays 1 env.vao,
   GLCmd.glBindVertexArray env.vao,
   GLCmd.glGenBuffers 1 env.vbo,
   GLCmd.glBindBuffer GL_ARRAY_BUFFER env.vbo,
   GLCmd.glGenBuffers 1 env.ebo,
   GLCmd.glBindBuffer GL_ELEMENT_ARRAY_BUFFER env.ebo]

/-- Function `gl3_init`: enables blending, creates VAO/VBO/EBO, loads the three
shaders (results unchecked), creates, links and wires the flat program, then
the textured program, aborting with `GL_FALSE` only when `glCreateProgram`
returns the zero handle; finally installs the initial view and deletes the
shader objects.  Returns the C result, the final module state and the trace. -/
def gl3_init (env : GLEnv) (s : GL3State) (width height : Int) :
    Int × GL3State × List GLCmd :=
  let vertexShader := env.loadShader GL_VERTEX_SHADER ShaderSrc.vertexSource "GL3 Vertex"
  let fragmentShader := env.loadShader GL_FRAGMENT_SHADER ShaderSrc.fragmentSource "GL3 Fragment"
  let texFragmentShader := env.loadShader GL_FRAGMENT_SHADER ShaderSrc.texFragmentSource "GL3 Texture Fragment"
  let shaderProgram := env.createProgram 0
  let s1 := { s with shaderProgram := shaderProgram }
  if shaderProgram = 0 then
    (GL_FALSE, s1,
     gl3_init_setup env ++ [GLCmd.s2dGlPrintError "Failed to create shader program"])
  else
    let posAttrib := env.getAttribLocation shaderProgram "position"
    let colAttrib := env.getAttribLocation shaderProgram "color"
    let flatTrace : List GLCmd :=
      [GLCmd.glAttachShader shaderProgram vertexShader,
       GLCmd.glAttachShader shaderProgram fragmentShader,
       GLCmd.glBindFragDataLocation shaderProgram 0 "outColor",
       GLCmd.glLinkProgram shaderProgram] ++
      (gl3_check_linked env shaderProgram).2 ++
      [GLCmd.glVertexAttribPointer posAttrib 2 0x1406 false 32 0,
       GLCmd.glEnableVertexAttribArray posAttrib,
       GLCmd.glVertexAttribPointer colAttrib 4 0x1406 false 32 8,
       GLCmd.glEnableVertexAttribArray colAttrib]
    let texShaderProgram := env.createProgram 1
    let s2 := { s1 with texShaderProgram := texShaderProgram }
    if texShaderProgram = 0 then
      (GL_FALSE, s2,
       gl3_init_setup env ++ flatTrace ++
       [GLCmd.s2dGlPrintError "Failed to create shader program"])
    else
      let posAttrib2 := env.getAttribLocation texShaderProgram "position"
      let colAttrib2 := env.getAttribLocation texShaderProgram "color"
      let texAttrib := env.getAttribLocation texShaderProgram "texcoord"
      let texTrace : List GLCmd :=
        [GLCmd.glAttachShader texShaderProgram vertexShader,
         GLCmd.glAttachShader texShaderProgram texFragmentShader,
         GLCmd.glBindFragDataLocation texShaderProgram 0 "outColor",
         GLCmd.glLinkProgram texShaderProgram] ++
        (gl3_check_linked env texShaderProgram).2 ++
        [GLCmd.glVertexAttribPointer posAttrib2 2 0x1406 false 32 0,
         GLCmd.glEnableVertexAttribArray posAttrib2,
         GLCmd.glVertexAttribPointer colAttrib2 4 0x1406 false 32 8,
         GLCmd.glEnableVertexAttribArray colAttrib2,
         GLCmd.glVertexAttribPointer texAttrib 2 0x1406 false 32 24,
         GLCmd.glEnableVertexAttribArray texAttrib]
      let (s3, viewTrace) := gl3_set_view env s2 width height width height
      (GL_TRUE, s3,
       gl3_init_setup env ++ flatTrace ++ texTrace ++ viewTrace ++
       [GLCmd.glDeleteShader vertexShader,
        GLCmd.glDeleteShader fragmentShader,
        GLCmd.glDeleteShader texFragmentShader])

/-- Function `gl3_draw_triangle`: builds the 3 interleaved 8-float vertices (texcoord
zero-filled), activates the flat program, uploads the vertex data and issues
`glDrawArrays(GL_TRIANGLES, 0, 3)`. -/
def gl3_draw_triangle (s : GL3State)
    (x1 y1 c1r c1g c1b c1a x2 y2 c2r c2g c2b c2a x3 y3 c3r c3g c3b c3a : GLfloat) :
    GL3State × List GLCmd :=
  let vertices : List GLfloat :=
    [x1, y1, c1r, c1g, c1b, c1a, 0, 0,
     x2, y2, c2r, c2g, c2b, c2a, 0, 0,
     x3, y3, c3r, c3g, c3b, c3a, 0, 0]
  ({ s with currentProgram := s.shaderProgram },
   [GLCmd.glUseProgram s.shaderProgram,
    GLCmd.glBufferDataArray GL_ARRAY_BUFFER vertices GL_STATIC_DRAW,
    GLCmd.glDrawArrays GL_TRIANGLES 0 3])

/-- Static helper `gl3_draw_texture`: builds the 4 quad-corner vertices
with normalized texcoords, activates the textured program, binds the texture,
uploads vertex and index data, and issues an indexed draw of 6 vertices. -/
def gl3_draw_texture (s : GL3State) (x y w h : Int)
    (r g b a : GLfloat) (texture_id : GLuint) : GL3State × List GLCmd :=
  let vertices : List GLfloat :=
    [(x : ℚ), (y : ℚ), r, g, b, a, 0, 0,
     ((x + w : Int) : ℚ), (y : ℚ), r, g, b, a, 1, 0,
     ((x + w : Int) : ℚ), ((y + h : Int) : ℚ), r, g, b, a, 1, 1,
     (x : ℚ), ((y + h : Int) : ℚ), r, g, b, a, 0, 1]
  ({ s with currentProgram := s.texShaderProgram },
   [GLCmd.glUseProgram s.texShaderProgram,
    GLCmd.glBindTexture GL_TEXTURE_2D texture_id,
    GLCmd.glBufferDataArray GL_ARRAY_BUFFER vertices GL_STATIC_DRAW,
    GLCmd.glBufferDataElements GL_ELEMENT_ARRAY_BUFFER elements GL_STATIC_DRAW,
    GLCmd.glDrawElements GL_TRIANGLES 6 GL_UNSIGNED_INT 0])

/-- Tint color, RGBA in 0..1.  Modelled from the spec: the `Color` struct of
`simple2d.h` (not under `src/`), whose `r g b a` fields the code reads. -/
structure Color where
  r : GLfloat
  g : GLfloat
  b : GLfloat
  a : GLfloat
deriving DecidableEq, Repr

/-- Modelled from the spec: the `Image` drawable of `simple2d.h` (not under
`src/`) — a DrawableTexture with position, size, a tint color and a GPU
texture handle.  `gl3_draw_image` reads only `x, y, w, h, texture_id`. -/
structure Image where
  x : Int
  y : Int
  w : Int
  h : Int
  color : Color
  texture_id : GLuint
deriving DecidableEq, Repr

/-- Modelled from the spec: the `Text` drawable of `simple2d.h` (not under
`src/`) — a DrawableTexture with position, size, its own color and a GPU
texture handle. -/
structure Text where
  x : Int
  y : Int
  w : Int
  h : Int
  color : Color
  texture_id : GLuint
deriving DecidableEq, Repr

/-- Function `gl3_draw_image`: forwards the image's geometry and texture to
`gl3_draw_texture` with the fixed tint `(1, 1, 1, 1)`. -/
def gl3_draw_image (s : GL3State) (img : Image) : GL3State × List GLCmd :=
  gl3_draw_texture s img.x img.y img.w img.h 1 1 1 1 img.texture_id

/-- Function `gl3_draw_text`: forwards the text's geometry, its own color as tint, and
its texture to `gl3_draw_texture`. -/
def gl3_draw_text (s : GL3State) (txt : Text) : GL3State × List GLCmd :=
  gl3_draw_texture s txt.x txt.y txt.w txt.h
    txt.color.r txt.color.g txt.color.b txt.color.a txt.texture_id

/-- Recognizes a `glUseProgram` call in a trace. -/
def isUseProgram : GLCmd → Bool
  | GLCmd.glUseProgram _ => true
  | _ => false

/-- Recognizes a `glDeleteShader` call in a trace. -/
def isDeleteShader : GLCmd → Bool
  | GLCmd.glDeleteShader _ => true
  | _ => false

/-- The module state before `gl3_init`: zero program handles and the global
matrix zero-initialized (16 entries, as a C file-scope array would be). -/
def stInit : GL3State :=
  { shaderProgram := 0, texShaderProgram := 0,
    orthoMatrix := List.replicate 16 0, currentProgram := 0 }

/-- A well-behaved driver environment: distinct nonzero program handles,
every program linked, every shader compile succeeding. -/
def envOk : GLEnv :=
  { createProgram := fun k => k + 1,
    linkStatus := fun _ => 1,
    loadShader := fun _ _ _ => 7,
    getUniformLocation := fun p _ => p + 10,
    getAttribLocation := fun p _ => (p : Int),
    vao := 1, vbo := 2, ebo := 3 }

/-- A driver environment where program creation succeeds but both programs
report link failure (`GL_LINK_STATUS` = 0). -/
def envLinkFail : GLEnv :=
  { createProgram := fun k => k + 1,
    linkStatus := fun _ => 0,
    loadShader := fun _ _ _ => 7,
    getUniformLocation := fun p _ => p + 10,
    getAttribLocation := fun p _ => (p : Int),
    vao := 1, vbo := 2, ebo := 3 }

/-- A driver environment in which every shader compilation fails.  Modelled
from the spec: the external Shader Loader (`S2D_GL_LoadShader`, not under
`src/`) reports a compile error by returning the zero (null) shader handle.
Program creation and linking succeed. -/
def envCompileFail : GLEnv :=
  { createProgram := fun k => k + 1,
    linkStatus := fun _ => 1,
    loadShader := fun _ _ _ => 0,
    getUniformLocation := fun p _ => p + 10,
    getAttribLocation := fun p _ => (p : Int),
    vao := 1, vbo := 2, ebo := 3 }

/-- A driver environment whose first `glCreateProgram` call returns the zero
handle. -/
def envCreateFail0 : GLEnv :=
  { createProgram := fun _ => 0,
    linkStatus := fun _ => 1,
    loadShader := fun _ _ _ => 7,
    getUniformLocation := fun p _ => p + 10,
    getAttribLocation := fun p _ => (p : Int),
    vao := 1, vbo := 2, ebo := 3 }

/-- C1: for every `gl3_set_view` call with positive viewport width and
height, afterwards the projection matrix entry 0 equals `2/viewportWidth` and
entry 5 equals `-2/viewportHeight`, and the full matrix is uploaded to the
`u_mvpMatrix` uniform of both the flat and the textured program. -/
theorem gl3_set_view_scales_and_uploads (env : GLEnv) (s : GL3State)
    (ww wh vw vh : Int) (hlen : s.orthoMatrix.length = 16)
    (hvw : 0 < vw) (hvh : 0 < vh) :
    (gl3_set_view env s ww wh vw vh).1.orthoMatrix.get? 0 = some (2 / (vw : ℚ)) ∧
    (gl3_set_view env s ww wh vw vh).1.orthoMatrix.get? 5 = some (-2 / (vh : ℚ)) ∧
    (gl3_set_view env s ww wh vw vh).2 =
      [GLCmd.glViewport 0 0 ww wh,
       GLCmd.glUseProgram s.shaderProgram,
       GLCmd.glUniformMatrix4fv (env.getUniformLocation s.shaderProgram "u_mvpMatrix")
         1 false ((gl3_set_view env s ww wh vw vh).1.orthoMatrix),
       GLCmd.glUseProgram s.texShaderProgram,
       GLCmd.glUniformMatrix4fv (env.getUniformLocation s.texShaderProgram "u_mvpMatrix")
         1 false ((gl3_set_view env s ww wh vw vh).1.orthoMatrix)] := by
  refine ⟨?_, ?_, ?_⟩
  · simp only [gl3_set_view]
    rw [List.get?_eq_getElem?, List.getElem?_set_ne (by omega),
        List.getElem?_set_self (by omega)]
  · simp only [gl3_set_view]
    rw [List.get?_eq_getElem?, List.getElem?_set_self (by simp [hlen])]
  · simp only [gl3_set_view]

/-- Witness for C1 at a concrete environment, state and viewport. -/
theorem gl3_set_view_scales_and_uploads_witness :
    stInit.orthoMatrix.length = 16 ∧ (0 : Int) < 800 ∧ (0 : Int) < 600 ∧
    ((gl3_set_view envOk stInit 640 480 800 600).1.orthoMatrix.get? 0 =
        some (2 / (800 : ℚ)) ∧
     (gl3_set_view envOk stInit 640 480 800 600).1.orthoMatrix.get? 5 =
        some (-2 / (600 : ℚ)) ∧
     (gl3_set_view envOk stInit 640 480 800 600).2 =
       [GLCmd.glViewport 0 0 640 480,
        GLCmd.glUseProgram stInit.shaderProgram,
        GLCmd.glUniformMatrix4fv
          (envOk.getUniformLocation stInit.shaderProgram "u_mvpMatrix")
          1 false ((gl3_set_view envOk stInit 640 480 800 600).1.orthoMatrix),
        GLCmd.glUseProgram stInit.texShaderProgram,
        GLCmd.glUniformMatrix4fv
          (envOk.getUniformLocation stInit.texShaderProgram "u_mvpMatrix")
          1 false ((gl3_set_view envOk stInit 640 480 800 600).1.orthoMatrix)]) :=
  ⟨by decide, by decide, by decide,
   gl3_set_view_scales_and_uploads envOk stInit 640 480 800 600
     (by decide) (by decide) (by decide)⟩

/-- C3: the textured-quad draw at `x=10, y=20, w=30, h=40`, tint
`(1,1,1,1)`, texture `T` builds exactly the four vertices at positions
`(10,20), (40,20), (40,60), (10,60)` with texcoords `(0,0), (1,0), (1,1),
(0,1)`, and issues one indexed draw of 6 vertices with indices
`{0,1,2,2,3,0}`. -/
theorem gl3_draw_texture_example (s : GL3State) (T : GLuint) :
    (gl3_draw_texture s 10 20 30 40 1 1 1 1 T).2 =
      [GLCmd.glUseProgram s.texShaderProgram,
       GLCmd.glBindTexture GL_TEXTURE_2D T,
       GLCmd.glBufferDataArray GL_ARRAY_BUFFER
         [10, 20, 1, 1, 1, 1, 0, 0,
          40, 20, 1, 1, 1, 1, 1, 0,
          40, 60, 1, 1, 1, 1, 1, 1,
          10, 60, 1, 1, 1, 1, 0, 1] GL_STATIC_DRAW,
       GLCmd.glBufferDataElements GL_ELEMENT_ARRAY_BUFFER [0, 1, 2, 2, 3, 0]
         GL_STATIC_DRAW,
       GLCmd.glDrawElements GL_TRIANGLES 6 GL_UNSIGNED_INT 0] := by
  norm_num [gl3_draw_texture, elements]

/-- C4: `gl3_draw_triangle` always builds exactly 3 interleaved 8-float
vertices with texcoords `(0,0)` for all three, activates the flat program,
uploads the vertices as a fresh static-draw buffer, and issues a non-indexed
triangle draw of exactly 3 vertices. -/
theorem gl3_draw_triangle_trace (s : GL3State)
    (x1 y1 c1r c1g c1b c1a x2 y2 c2r c2g c2b c2a x3 y3 c3r c3g c3b c3a : GLfloat) :
    (gl3_draw_triangle s x1 y1 c1r c1g c1b c1a x2 y2 c2r c2g c2b c2a
        x3 y3 c3r c3g c3b c3a).2 =
      [GLCmd.glUseProgram s.shaderProgram,
       GLCmd.glBufferDataArray GL_ARRAY_BUFFER
         [x1, y1, c1r, c1g, c1b, c1a, 0, 0,
          x2, y2, c2r, c2g, c2b, c2a, 0, 0,
          x3, y3, c3r, c3g, c3b, c3a, 0, 0] GL_STATIC_DRAW,
       GLCmd.glDrawArrays GL_TRIANGLES 0 3] ∧
    (gl3_draw_triangle s x1 y1 c1r c1g c1b c1a x2 y2 c2r c2g c2b c2a
        x3 y3 c3r c3g c3b c3a).1.currentProgram = s.shaderProgram := by
  constructor <;> rfl

/-- C8: two consecutive `gl3_set_view` calls leave the module state (matrix
included) exactly as a single call with the second call's parameters would:
last write wins, nothing accumulates from the first call. -/
theorem gl3_set_view_last_write_wins (env : GLEnv) (s : GL3State)
    (ww1 wh1 vw1 vh1 ww2 wh2 vw2 vh2 : Int) :
    (gl3_set_view env (gl3_set_view env s ww1 wh1 vw1 vh1).1
        ww2 wh2 vw2 vh2).1 =
    (gl3_set_view env s ww2 wh2 vw2 vh2).1 := by
  have hm : ∀ (m : List ℚ) (a b c d : ℚ),
      (((m.set 0 a).set 5 b).set 0 c).set 5 d = (m.set 0 c).set 5 d := by
    intro m a b c d
    apply List.ext_get?
    intro n
    rcases eq_or_ne n 5 with rfl | h5
    · simp [List.get?_eq_getElem?, List.getElem?_set]
    · rcases eq_or_ne n 0 with rfl | h0
      · simp [List.get?_eq_getElem?, List.getElem?_set]
      · simp [List.get?_eq_getElem?, List.getElem?_set, h5, h0,
          Ne.symm h5, Ne.symm h0]
  simp only [gl3_set_view]
  simp [hm]

/-- C2: when link status is failure, `gl3_check_linked` returns `GL_FALSE`
and logs an error, yet `gl3_init` ignores the link-check result: with both
programs created (nonzero) but unlinked, it still returns `GL_TRUE` and keeps
both program handles in the module state. -/
theorem gl3_link_failure_nonfatal (env : GLEnv) (s : GL3State) (w h : Int)
    (h0 : env.createProgram 0 ≠ 0) (h1 : env.createProgram 1 ≠ 0)
    (hl0 : env.linkStatus (env.createProgram 0) = 0)
    (hl1 : env.linkStatus (env.createProgram 1) = 0) :
    (gl3_check_linked env (env.createProgram 0)).1 = GL_FALSE ∧
    (gl3_check_linked env (env.createProgram 0)).2 =
      [GLCmd.s2dLog "GL3 shader was not linked" S2DLogLevel.S2D_ERROR] ∧
    (gl3_check_linked env (env.createProgram 1)).1 = GL_FALSE ∧
    (gl3_init env s w h).1 = GL_TRUE ∧
    (gl3_init env s w h).2.1.shaderProgram = env.createProgram 0 ∧
    (gl3_init env s w h).2.1.texShaderProgram = env.createProgram 1 := by
  refine ⟨?_, ?_, ?_, ?_, ?_, ?_⟩ <;>
    simp [gl3_check_linked, gl3_init, gl3_set_view, h0, h1, hl0, hl1]

/-- Witness for C2: a concrete environment with created but unlinked
programs, on which `gl3_init` still reports success. -/
theorem gl3_link_failure_nonfatal_witness :
    envLinkFail.createProgram 0 ≠ 0 ∧ envLinkFail.createProgram 1 ≠ 0 ∧
    envLinkFail.linkStatus (envLinkFail.createProgram 0) = 0 ∧
    envLinkFail.linkStatus (envLinkFail.createProgram 1) = 0 ∧
    (gl3_init envLinkFail stInit 640 480).1 = GL_TRUE :=
  ⟨by decide, by decide, by decide, by decide,
   (gl3_link_failure_nonfatal envLinkFail stInit 640 480
      (by decide) (by decide) (by decide) (by decide)).2.2.2.1⟩

/-- C5 counterexample: in an environment where all three shader compilations
fail (the loader returns the zero handle) but program creation succeeds,
`gl3_init` does not abort — it returns `GL_TRUE`, contradicting the claim
that a compile failure surfaces a failure boolean. -/
theorem gl3_init_ignores_compile_failure_cex :
    envCompileFail.loadShader GL_VERTEX_SHADER ShaderSrc.vertexSource "GL3 Vertex" = 0 ∧
    envCompileFail.loadShader GL_FRAGMENT_SHADER ShaderSrc.fragmentSource "GL3 Fragment" = 0 ∧
    envCompileFail.loadShader GL_FRAGMENT_SHADER ShaderSrc.texFragmentSource "GL3 Texture Fragment" = 0 ∧
    (gl3_init envCompileFail stInit 640 480).1 = GL_TRUE := by
  refine ⟨rfl, rfl, rfl, ?_⟩
  decide

/-- C5 amended: `gl3_init` never checks the shader-compile results; its
boolean result is `GL_FALSE` exactly when one of the two `glCreateProgram`
calls returns the zero handle, and is unchanged by any change to the driver
environment that keeps the `glCreateProgram` results fixed (in particular by
compile failures). -/
theorem gl3_init_failure_iff_create_failure (env env2 : GLEnv) (s : GL3State)
    (w h : Int) (hcp : env2.createProgram = env.createProgram) :
    ((gl3_init env s w h).1 = GL_FALSE ↔
      env.createProgram 0 = 0 ∨ env.createProgram 1 = 0) ∧
    (gl3_init env2 s w h).1 = (gl3_init env s w h).1 := by
  by_cases h0 : env.createProgram 0 = 0
  · constructor
    · simp [gl3_init, h0]
    · simp [gl3_init, h0, hcp]
  · by_cases h1 : env.createProgram 1 = 0
    · constructor
      · simp [gl3_init, h0, h1]
      · simp [gl3_init, h0, h1, hcp]
    · constructor
      · simp [gl3_init, h0, h1, GL_FALSE, GL_TRUE]
      · simp [gl3_init, h0, h1, hcp]

/-- Witness for the amended C5 at a concrete environment. -/
theorem gl3_init_failure_iff_create_failure_witness :
    envCompileFail.createProgram = envCompileFail.createProgram ∧
    ((gl3_init envCompileFail stInit 640 480).1 = GL_FALSE ↔
      envCompileFail.createProgram 0 = 0 ∨ envCompileFail.createProgram 1 = 0) :=
  ⟨rfl, (gl3_init_failure_iff_create_failure envCompileFail envCompileFail
      stInit 640 480 rfl).1⟩

/-- C6: if either `glCreateProgram` call returns the zero handle, `gl3_init`
logs an error and returns `GL_FALSE`; the setup commands (blend enable,
buffer creation and binding) stay in the trace with nothing rolled back: the
trace is the setup, then only program-wiring commands (no shader deletion, no
program switch), then the error log as the last command. -/
theorem gl3_init_create_failure_aborts (env : GLEnv) (s : GL3State)
    (w h : Int) (hz : env.createProgram 0 = 0 ∨ env.createProgram 1 = 0) :
    (gl3_init env s w h).1 = GL_FALSE ∧
    ∃ t, (gl3_init env s w h).2.2 =
        gl3_init_setup env ++ t ++
          [GLCmd.s2dGlPrintError "Failed to create shader program"] ∧
      ∀ c ∈ t, isDeleteShader c = false ∧ isUseProgram c = false := by
  by_cases h0 : env.createProgram 0 = 0
  · refine ⟨by simp [gl3_init, h0], [], by simp [gl3_init, h0], by simp⟩
  · rcases hz with h0' | h1
    · exact absurd h0' h0
    · refine ⟨by simp [gl3_init, h0, h1], ?_⟩
      by_cases hl : env.linkStatus (env.createProgram 0) = 0
      · refine ⟨[GLCmd.glAttachShader (env.createProgram 0)
            (env.loadShader GL_VERTEX_SHADER ShaderSrc.vertexSource "GL3 Vertex"),
          GLCmd.glAttachShader (env.createProgram 0)
            (env.loadShader GL_FRAGMENT_SHADER ShaderSrc.fragmentSource "GL3 Fragment"),
          GLCmd.glBindFragDataLocation (env.createProgram 0) 0 "outColor",
          GLCmd.glLinkProgram (env.createProgram 0),
          GLCmd.s2dLog "GL3 shader was not linked" S2DLogLevel.S2D_ERROR,
          GLCmd.glVertexAttribPointer
            (env.getAttribLocation (env.createProgram 0) "position") 2 5126 false 32 0,
          GLCmd.glEnableVertexAttribArray
            (env.getAttribLocation (env.createProgram 0) "position"),
          GLCmd.glVertexAttribPointer
            (env.getAttribLocation (env.createProgram 0) "color") 4 5126 false 32 8,
          GLCmd.glEnableVertexAttribArray
            (env.getAttribLocation (env.createProgram 0) "color")],
          by simp [gl3_init, gl3_check_linked, h0, h1, hl], ?_⟩
        intro c hc
        simp only [List.mem_cons, List.not_mem_nil, or_false] at hc
        rcases hc with rfl | rfl | rfl | rfl | rfl | rfl | rfl | rfl | rfl <;>
          exact ⟨rfl, rfl⟩
      · refine ⟨[GLCmd.glAttachShader (env.createProgram 0)
            (env.loadShader GL_VERTEX_SHADER ShaderSrc.vertexSource "GL3 Vertex"),
          GLCmd.glAttachShader (env.createProgram 0)
            (env.loadShader GL_FRAGMENT_SHADER ShaderSrc.fragmentSource "GL3 Fragment"),
          GLCmd.glBindFragDataLocation (env.createProgram 0) 0 "outColor",
          GLCmd.glLinkProgram (env.createProgram 0),
          GLCmd.glVertexAttribPointer
            (env.getAttribLocation (env.createProgram 0) "position") 2 5126 false 32 0,
          GLCmd.glEnableVertexAttribArray
            (env.getAttribLocation (env.createProgram 0) "position"),
          GLCmd.glVertexAttribPointer
            (env.getAttribLocation (env.createProgram 0) "color") 4 5126 false 32 8,
          GLCmd.glEnableVertexAttribArray
            (env.getAttribLocation (env.createProgram 0) "color")],
          by simp [gl3_init, gl3_check_linked, h0, h1, hl], ?_⟩
        intro c hc
        simp only [List.mem_cons, List.not_mem_nil, or_false] at hc
        rcases hc with rfl | rfl | rfl | rfl | rfl | rfl | rfl | rfl <;>
          exact ⟨rfl, rfl⟩

/-- Witness for C6 at a concrete environment whose first program creation
fails. -/
theorem gl3_init_create_failure_aborts_witness :
    (envCreateFail0.createProgram 0 = 0 ∨ envCreateFail0.createProgram 1 = 0) ∧
    (gl3_init envCreateFail0 stInit 640 480).1 = GL_FALSE :=
  ⟨Or.inl rfl,
   (gl3_init_create_failure_aborts envCreateFail0 stInit 640 480 (Or.inl rfl)).1⟩

/-- A concrete image for witnesses. -/
def imgT : Image :=
  { x := 1, y := 2, w := 3, h := 4,
    color := { r := 1, g := 0, b := 0, a := 1 }, texture_id := 9 }

/-- A concrete text drawable for witnesses. -/
def txtT : Text :=
  { x := 5, y := 6, w := 7, h := 8,
    color := { r := 0, g := 1, b := 0, a := 1 }, texture_id := 11 }

/-- C7: `gl3_set_view` writes only entries 0 and 5 of the projection matrix
(all other entries are returned unchanged); no other operation of the module
writes the matrix at all (every draw operation preserves it), and `gl3_init`
changes the matrix only through its internal `gl3_set_view` call. -/
theorem gl3_matrix_writes_confined (env : GLEnv) (s : GL3State)
    (ww wh vw vh w h : Int)
    (x1 y1 c1r c1g c1b c1a x2 y2 c2r c2g c2b c2a x3 y3 c3r c3g c3b c3a : GLfloat)
    (qx qy qw qh : Int) (r g b a : GLfloat) (tid : GLuint)
    (img : Image) (txt : Text) :
    (∀ i : ℕ, i ≠ 0 → i ≠ 5 →
      (gl3_set_view env s ww wh vw vh).1.orthoMatrix.get? i =
        s.orthoMatrix.get? i) ∧
    (gl3_draw_triangle s x1 y1 c1r c1g c1b c1a x2 y2 c2r c2g c2b c2a
        x3 y3 c3r c3g c3b c3a).1.orthoMatrix = s.orthoMatrix ∧
    (gl3_draw_texture s qx qy qw qh r g b a tid).1.orthoMatrix =
      s.orthoMatrix ∧
    (gl3_draw_image s img).1.orthoMatrix = s.orthoMatrix ∧
    (gl3_draw_text s txt).1.orthoMatrix = s.orthoMatrix ∧
    ((gl3_init env s w h).2.1.orthoMatrix = s.orthoMatrix ∨
     (gl3_init env s w h).2.1.orthoMatrix =
       (gl3_set_view env s w h w h).1.orthoMatrix) := by
  refine ⟨?_, rfl, rfl, rfl, rfl, ?_⟩
  · intro i hi0 hi5
    simp only [gl3_set_view]
    rw [List.get?_eq_getElem?, List.getElem?_set_ne (Ne.symm hi5),
        List.getElem?_set_ne (Ne.symm hi0), List.get?_eq_getElem?]
  · by_cases h0 : env.createProgram 0 = 0
    · left; simp [gl3_init, h0]
    · by_cases h1 : env.createProgram 1 = 0
      · left; simp [gl3_init, h0, h1]
      · right; simp [gl3_init, gl3_set_view, h0, h1]

/-- Witness for C7: at a concrete input, entry 1 of the matrix is untouched
by `gl3_set_view`. -/
theorem gl3_matrix_writes_confined_witness :
    (1 : ℕ) ≠ 0 ∧ (1 : ℕ) ≠ 5 ∧
    (gl3_set_view envOk stInit 640 480 800 600).1.orthoMatrix.get? 1 =
      stInit.orthoMatrix.get? 1 :=
  ⟨by decide, by decide,
   (gl3_matrix_writes_confined envOk stInit 640 480 800 600 640 480
      0 0 0 0 0 0 0 0 0 0 0 0 0 0 0 0 0 0
      0 0 0 0 0 0 0 0 0 imgT txtT).1 1 (by decide) (by decide)⟩

/-- C9: `gl3_draw_image` always draws with the fixed tint `(1,1,1,1)` —
changing the image's color field changes nothing — while `gl3_draw_text`
draws with the text's own color as tint; both forward `x, y, w, h` and the
texture handle verbatim to the same textured-quad primitive. -/
theorem gl3_draw_image_fixed_tint_draw_text_own_color (s : GL3State)
    (img : Image) (c : Color) (txt : Text) :
    gl3_draw_image s { img with color := c } = gl3_draw_image s img ∧
    (gl3_draw_image s img).2 =
      [GLCmd.glUseProgram s.texShaderProgram,
       GLCmd.glBindTexture GL_TEXTURE_2D img.texture_id,
       GLCmd.glBufferDataArray GL_ARRAY_BUFFER
         [(img.x : ℚ), (img.y : ℚ), 1, 1, 1, 1, 0, 0,
          ((img.x + img.w : Int) : ℚ), (img.y : ℚ), 1, 1, 1, 1, 1, 0,
          ((img.x + img.w : Int) : ℚ), ((img.y + img.h : Int) : ℚ),
            1, 1, 1, 1, 1, 1,
          (img.x : ℚ), ((img.y + img.h : Int) : ℚ), 1, 1, 1, 1, 0, 1]
         GL_STATIC_DRAW,
       GLCmd.glBufferDataElements GL_ELEMENT_ARRAY_BUFFER elements
         GL_STATIC_DRAW,
       GLCmd.glDrawElements GL_TRIANGLES 6 GL_UNSIGNED_INT 0] ∧
    (gl3_draw_text s txt).2 =
      [GLCmd.glUseProgram s.texShaderProgram,
       GLCmd.glBindTexture GL_TEXTURE_2D txt.texture_id,
       GLCmd.glBufferDataArray GL_ARRAY_BUFFER
         [(txt.x : ℚ), (txt.y : ℚ), txt.color.r, txt.color.g, txt.color.b,
            txt.color.a, 0, 0,
          ((txt.x + txt.w : Int) : ℚ), (txt.y : ℚ), txt.color.r, txt.color.g,
            txt.color.b, txt.color.a, 1, 0,
          ((txt.x + txt.w : Int) : ℚ), ((txt.y + txt.h : Int) : ℚ),
            txt.color.r, txt.color.g, txt.color.b, txt.color.a, 1, 1,
          (txt.x : ℚ), ((txt.y + txt.h : Int) : ℚ), txt.color.r, txt.color.g,
            txt.color.b, txt.color.a, 0, 1] GL_STATIC_DRAW,
       GLCmd.glBufferDataElements GL_ELEMENT_ARRAY_BUFFER elements
         GL_STATIC_DRAW,
       GLCmd.glDrawElements GL_TRIANGLES 6 GL_UNSIGNED_INT 0] :=
  ⟨rfl, rfl, rfl⟩

/-- C10: after `gl3_set_view` returns, the textured program is the active
program (the trace switches to the flat program first, the textured program
second, so the last `glUseProgram` targets the textured program); and a
successful `gl3_init` also ends with the textured program active. -/
theorem gl3_set_view_leaves_textured_active (env : GLEnv) (s : GL3State)
    (ww wh vw vh w h : Int) (hs : (gl3_init env s w h).1 = GL_TRUE) :
    (gl3_set_view env s ww wh vw vh).1.currentProgram = s.texShaderProgram ∧
    (gl3_set_view env s ww wh vw vh).2.filter isUseProgram =
      [GLCmd.glUseProgram s.shaderProgram,
       GLCmd.glUseProgram s.texShaderProgram] ∧
    (gl3_init env s w h).2.1.currentProgram =
      (gl3_init env s w h).2.1.texShaderProgram := by
  refine ⟨rfl, by simp [gl3_set_view, isUseProgram], ?_⟩
  by_cases h0 : env.createProgram 0 = 0
  · exact absurd hs (by simp [gl3_init, h0, GL_FALSE, GL_TRUE])
  · by_cases h1 : env.createProgram 1 = 0
    · exact absurd hs (by simp [gl3_init, h0, h1, GL_FALSE, GL_TRUE])
    · simp [gl3_init, gl3_set_view, h0, h1]

/-- Witness for C10 at a concrete environment on which `gl3_init`
succeeds. -/
theorem gl3_set_view_leaves_textured_active_witness :
    (gl3_init envOk stInit 640 480).1 = GL_TRUE ∧
    (gl3_init envOk stInit 640 480).2.1.currentProgram =
      (gl3_init envOk stInit 640 480).2.1.texShaderProgram :=
  ⟨by decide,
   (gl3_set_view_leaves_textured_active envOk stInit 320 240 320 240 640 480
      (by decide)).2.2⟩

end GL3
